import Mathlib

/-!
# Verification of the ChiCrypt relay core (app.py / database.py / utils.py)

Shallow embedding of the authentication and permission-gated delivery
subsystem of the repository.  The MySQL-backed `Database` class is modelled
as a pure state (`DBState`) with one Lean function per Python method; the
Flask endpoint handlers in `app.py` are modelled as functions from the
request fields and the store state to a result value and the new store
state.  External stdlib/crypto capabilities (SHA-256 hashing via
`hashlib`, base64 decoding, Ed25519 signature verification via PyNaCl,
JSON serialization) are passed in as explicit function parameters, since
the source calls into them without reimplementing them.

Machine integers do not overflow in any modelled path (ids and sizes are
small), so `Nat`/`Int` are used directly.  Timestamps are seconds as `Nat`;
MySQL `NOW()` is the explicit `now` argument of each operation that the
source evaluates against the clock.
-/

namespace ChiCrypt

/-- A row of the `clients` table (database.py `init_database`). -/
structure Client where
  id : Nat
  link_token : String
  public_key : String
  public_key_hash : String
  key_type : String
  display_name : Option String
  fetch_token_hash : String
  created_at : Nat
  deriving Repr, DecidableEq

/-- A row of the `messages` table. -/
structure Message where
  id : Nat
  link_token : String
  encrypted_message : String
  created_at : Nat
  seen : Bool
  metadata : Option String
  deriving Repr, DecidableEq

/-- A row of the `challenges` table. -/
structure Challenge where
  id : Nat
  link_token : String
  challenge_nonce : String
  client_ip : Option String
  user_agent : Option String
  created_at : Nat
  expires_at : Nat
  used : Bool
  deriving Repr, DecidableEq

/-- Status enum of the `message_requests` table. -/
inductive ReqStatus where
  | pending
  | accepted
  | rejected
  deriving Repr, DecidableEq

/-- A row of the `message_requests` table. -/
structure MessageRequest where
  id : Nat
  from_link_token : String
  to_link_token : String
  from_nickname : String
  status : ReqStatus
  created_at : Nat
  updated_at : Nat
  deriving Repr, DecidableEq

/-- The state of the `Database` object: the connection flag set in
`Database.connect` plus the four durable tables.  The `next_*` fields model
the MySQL AUTO_INCREMENT counters (`cursor.lastrowid`). -/
structure DBState where
  connected : Bool
  clients : List Client
  messages : List Message
  challenges : List Challenge
  message_requests : List MessageRequest
  next_message_id : Nat
  next_challenge_id : Nat
  next_request_id : Nat
  deriving Repr, DecidableEq

/-- The exception message raised by every mutating `Database` method when
`self.connected` is false. -/
def dbUnavailableMsg : String := "Database connection not available"

/-- Python truthiness of an optional string request field
(`data.get(...)` yields `None` when the key is absent or null; `if field:`
is false for `None` and for the empty string). -/
def truthy : Option String → Bool
  | some s => decide (s ≠ "")
  | none => false

/-- `Database.get_client_by_link_token`: `SELECT * FROM clients WHERE
link_token = %s` + `fetchone`; returns `None` when not connected. -/
def get_client_by_link_token (st : DBState) (lt : String) : Option Client :=
  if !st.connected then none
  else st.clients.find? (fun c => c.link_token == lt)

/-- `Database.verify_fetch_token`: recomputes
`hashlib.sha256(fetch_token.encode()).hexdigest()` and compares with
`hmac.compare_digest` (equality, in constant time) against the stored
`fetch_token_hash`; `hash` is the SHA-256-hexdigest capability. -/
def verify_fetch_token (hash : String → String) (st : DBState)
    (lt fetch_token : String) : Bool :=
  if !st.connected then false
  else
    match st.clients.find? (fun c => c.link_token == lt) with
    | none => false
    | some c => c.fetch_token_hash == hash fetch_token

/-- `Database.store_message`: raises when not connected; otherwise inserts
a row with `seen = FALSE` and the serialized metadata (`json.dumps(metadata)
if metadata else None` — Python truthiness of the metadata value). -/
def store_message (metaSerialize : String → String) (st : DBState)
    (lt enc : String) (metadata : Option String) (now : Nat) :
    Except String (Nat × DBState) :=
  if !st.connected then .error dbUnavailableMsg
  else
    let metadata_json : Option String :=
      match metadata with
      | some m => if m.isEmpty then none else some (metaSerialize m)
      | none => none
    let row : Message :=
      { id := st.next_message_id, link_token := lt, encrypted_message := enc
        created_at := now, seen := false, metadata := metadata_json }
    .ok (st.next_message_id,
      { st with messages := st.messages ++ [row]
                next_message_id := st.next_message_id + 1 })

/-- Limit sanitization inside `Database.get_messages`:
`if limit is None or not isinstance(limit, int): limit = 50` followed by
`limit = max(1, min(limit, 200))`. -/
def sanitizeLimit : Option Int → Nat
  | none => 50
  | some i => (max 1 (min i 200)).toNat

/-- Insert a message into a list kept sorted by descending id
(modelling `ORDER BY id DESC`). -/
def insertDescById (m : Message) : List Message → List Message
  | [] => [m]
  | x :: xs => if x.id ≤ m.id then m :: x :: xs else x :: insertDescById m xs

/-- Sort messages by descending id. -/
def sortDescById : List Message → List Message
  | [] => []
  | x :: xs => insertDescById x (sortDescById xs)

/-- `Database.get_messages(self, link_token, include_seen=False, limit=50,
before_id=None)` (database.py lines 185–219): filters by recipient,
`seen = FALSE` unless `include_seen`, `id < before_id` when given; orders
by id descending and truncates to the sanitized limit.  Returns `[]` when
not connected.  Note the Python signature: there is no `since_id` and no
`order` parameter. -/
def get_messages (st : DBState) (lt : String) (include_seen : Bool)
    (limit : Option Int) (before_id : Option Nat) : List Message :=
  if !st.connected then []
  else
    let l := sanitizeLimit limit
    let rows := st.messages.filter (fun m =>
      m.link_token == lt
        && (include_seen || !m.seen)
        && (match before_id with
            | some b => decide (m.id < b)
            | none => true))
    (sortDescById rows).take l

/-- `Database.mark_messages_seen`: raises when not connected; an empty id
list returns before any SQL; otherwise `UPDATE messages SET seen = TRUE
WHERE id IN (ids) AND link_token = %s`. -/
def mark_messages_seen (st : DBState) (lt : String) (ids : List Nat) :
    Except String DBState :=
  if !st.connected then .error dbUnavailableMsg
  else if ids.isEmpty then .ok st
  else .ok { st with
    messages := st.messages.map (fun m =>
      if ids.contains m.id && m.link_token == lt then { m with seen := true }
      else m) }

/-- `Database.create_challenge`: raises when not connected; inserts a row
with `expires_at = DATE_ADD(NOW(), INTERVAL expires_in_seconds SECOND)` and
`used = FALSE`. -/
def create_challenge (st : DBState) (lt nonce : String)
    (expires_in_seconds : Nat) (client_ip user_agent : Option String)
    (now : Nat) : Except String (Nat × DBState) :=
  if !st.connected then .error dbUnavailableMsg
  else
    let row : Challenge :=
      { id := st.next_challenge_id, link_token := lt, challenge_nonce := nonce
        client_ip := client_ip, user_agent := user_agent
        created_at := now, expires_at := now + expires_in_seconds
        used := false }
    .ok (st.next_challenge_id,
      { st with challenges := st.challenges ++ [row]
                next_challenge_id := st.next_challenge_id + 1 })

/-- Pick the row with maximal `created_at` (modelling
`ORDER BY created_at DESC LIMIT 1` + `fetchone`). -/
def pickLatest : List Challenge → Option Challenge
  | [] => none
  | c :: cs =>
    match pickLatest cs with
    | none => some c
    | some b => if b.created_at > c.created_at then some b else some c

/-- `Database.get_challenge`: returns `None` when not connected; otherwise
the most recently created row matching `link_token = %s AND
challenge_nonce = %s AND expires_at > NOW() AND used = FALSE`. -/
def get_challenge (st : DBState) (lt nonce : String) (now : Nat) :
    Option Challenge :=
  if !st.connected then none
  else pickLatest (st.challenges.filter (fun c =>
    c.link_token == lt && c.challenge_nonce == nonce
      && decide (now < c.expires_at) && !c.used))

/-- `Database.mark_challenge_used`: raises when not connected; otherwise
`UPDATE challenges SET used = TRUE WHERE id = %s`. -/
def mark_challenge_used (st : DBState) (challenge_id : Nat) :
    Except String DBState :=
  if !st.connected then .error dbUnavailableMsg
  else .ok { st with
    challenges := st.challenges.map (fun c =>
      if c.id == challenge_id then { c with used := true } else c) }

/-- `Database.cleanup_old_challenges`: no-op when not connected; otherwise
`DELETE FROM challenges WHERE expires_at < NOW()`. -/
def cleanup_old_challenges (st : DBState) (now : Nat) : DBState :=
  if !st.connected then st
  else { st with
    challenges := st.challenges.filter (fun c => !decide (c.expires_at < now)) }

/-- `Database.get_client_info_by_link`: returns `None` when not connected;
otherwise `SELECT link_token, display_name, created_at FROM clients WHERE
link_token = %s` + `fetchone` (modelled as returning the whole row; only
the three selected columns are read by the caller). -/
def get_client_info_by_link (st : DBState) (lt : String) : Option Client :=
  if !st.connected then none
  else st.clients.find? (fun c => c.link_token == lt)

/-- `Database.create_message_request`: raises when not connected; inserts a
row with `status = 'pending'`. -/
def create_message_request (st : DBState) (f t nick : String) (now : Nat) :
    Except String (Nat × DBState) :=
  if !st.connected then .error dbUnavailableMsg
  else
    let row : MessageRequest :=
      { id := st.next_request_id, from_link_token := f, to_link_token := t
        from_nickname := nick, status := .pending
        created_at := now, updated_at := now }
    .ok (st.next_request_id,
      { st with message_requests := st.message_requests ++ [row]
                next_request_id := st.next_request_id + 1 })

/-- `Database.check_message_permission`: returns `False` when not
connected; otherwise true iff a row with `from_link_token = %s AND
to_link_token = %s AND status = 'accepted'` exists. -/
def check_message_permission (st : DBState) (f t : String) : Bool :=
  if !st.connected then false
  else st.message_requests.any (fun r =>
    r.from_link_token == f && r.to_link_token == t && r.status == .accepted)

/-! ## Endpoint handlers (app.py)

Each handler takes the request fields (optional JSON fields as `Option`),
the current store state and the clock, and returns a result value tagging
the HTTP response together with the store state after the call.  The
external capabilities are explicit parameters:
`hash` — `hashlib.sha256(...).hexdigest()` (utils.hash_token);
`verify` — `utils.verify_signature(public_key_b64, message, signature_b64)`;
`decode` — `base64.b64decode`, `none` when it raises;
`metaSerialize` — `json.dumps` of the metadata value. -/

/-- Python whitespace, as stripped by `str.strip()`. -/
def isSpaceChar (c : Char) : Bool :=
  c == Char.ofNat 32 || c == Char.ofNat 9 || c == Char.ofNat 10
    || c == Char.ofNat 13 || c == Char.ofNat 11 || c == Char.ofNat 12

/-- `str.strip()` over the character list. -/
def pyStrip (cs : List Char) : List Char :=
  (((cs.dropWhile isSpaceChar).reverse).dropWhile isSpaceChar).reverse

/-- `utils.sanitize_input`: removes the characters `<` `>` `"` `;` `(` `)`
`&` `+` and the single quote (`re.sub` with that character class), then
strips surrounding whitespace. -/
def sanitize_input (s : String) : String :=
  String.mk (pyStrip (s.data.filter (fun c =>
    !([Char.ofNat 60, Char.ofNat 62, Char.ofNat 34, Char.ofNat 39,
       Char.ofNat 59, Char.ofNat 40, Char.ofNat 41, Char.ofNat 38,
       Char.ofNat 43].contains c))))

/-- Whether the first list of characters leads the second (used to model
`str.startswith`). -/
def leadsWith : List Char → List Char → Bool
  | [], _ => true
  | _ :: _, [] => false
  | a :: as, b :: bs => a == b && leadsWith as bs

/-- Python `str.split(' ')`: split on every single space, keeping empty
pieces. -/
def pySplitSpace : List Char → List Char → List String
  | [], acc => [String.mk acc.reverse]
  | c :: cs, acc =>
    if c == Char.ofNat 32 then String.mk acc.reverse :: pySplitSpace cs []
    else pySplitSpace cs (c :: acc)

/-- Extraction of the bearer token from the `Authorization` header:
`auth_header and auth_header.startswith('Bearer ')` guards
`auth_header.split(' ')[1]`. -/
def bearerTok : Option String → Option String
  | some h =>
    if leadsWith "Bearer ".data h.data then
      some ((pySplitSpace h.data []).getD 1 "")
    else none
  | none => none

/-- Result of `POST /send` (app.py `send_message`). -/
inductive SendResult where
  | sent (id : Nat)        -- 201
  | invalidBase64          -- 400 Invalid base64 for encrypted_message
  | payloadTooLarge        -- 413 Encrypted message too large (max 16KB)
  | metadataTooLarge       -- 413 Metadata too large (max 4KB)
  | recipientNotFound      -- 404 Invalid link_token
  | senderNotFound         -- 404 Invalid from_link_token
  | permissionDenied       -- 403 Permission denied
  | serverError            -- 500 (unhandled exception)
  deriving Repr, DecidableEq

/-- app.py `send_message` (lines 145–211): payload size and encoding
checks, optional metadata size check, recipient lookup, then — only when
`from_link_token` is truthy — sender lookup and the ordered-pair
permission check, and finally `Database.store_message`. -/
def send_message (decode : String → Option (List Nat))
    (metaSerialize : String → String) (st : DBState)
    (to_lt : String) (from_lt : Option String) (enc : String)
    (metadata : Option String) (now : Nat) : SendResult × DBState :=
  match decode enc with
  | none => (.invalidBase64, st)
  | some decoded =>
    if decoded.length > 16 * 1024 then (.payloadTooLarge, st)
    else if (match metadata with
             | some m => decide ((metaSerialize m).length > 4 * 1024)
             | none => false) then (.metadataTooLarge, st)
    else
      match get_client_by_link_token st to_lt with
      | none => (.recipientNotFound, st)
      | some _ =>
        let deliver : Unit → SendResult × DBState := fun _ =>
          match store_message metaSerialize st to_lt enc metadata now with
          | .ok (id, st') => (.sent id, st')
          | .error _ => (.serverError, st)
        if truthy from_lt then
          match get_client_by_link_token st (from_lt.getD "") with
          | none => (.senderNotFound, st)
          | some _ =>
            if check_message_permission st (from_lt.getD "") to_lt then
              deliver ()
            else (.permissionDenied, st)
        else deliver ()

/-- Result of `POST /challenge_request` (app.py `challenge_request`). -/
inductive ChallengeResult where
  | issued (nonce : String)  -- 200
  | invalidLinkToken         -- 404
  | tooManyOutstanding       -- 429 Too many outstanding challenges
  | tooFrequent              -- 429 Challenge requested too frequently
  | serverError              -- 500
  deriving Repr, DecidableEq

/-- The first rate-limit query of app.py `challenge_request`:
`SELECT COUNT(*) FROM challenges WHERE link_token=%s AND used=FALSE AND
expires_at>NOW()`. -/
def outstandingCount (st : DBState) (lt : String) (now : Nat) : Nat :=
  (st.challenges.filter (fun c =>
    c.link_token == lt && !c.used && decide (now < c.expires_at))).length

/-- The second rate-limit query: the `created_at` of the most recently
created challenge for the identity (`ORDER BY created_at DESC LIMIT 1`,
over all rows, used or not), as the maximum creation time. -/
def latestCreated (st : DBState) (lt : String) : Option Nat :=
  (st.challenges.filter (fun c => c.link_token == lt)).foldl
    (fun acc c =>
      match acc with
      | none => some c.created_at
      | some a => some (max a c.created_at)) none

/-- app.py `challenge_request` (lines 213–261): recipient lookup, then the
outstanding-count check (≥5 → 429), then the cooldown check
(`TIMESTAMPDIFF(SECOND, created_at, NOW()) < 3` on the latest challenge →
429), then `create_challenge(..., expires_in_seconds=300, ...)` followed by
`cleanup_old_challenges`.  `nonce` is the freshly generated
`generate_challenge_nonce()` value. -/
def challenge_request (st : DBState) (lt nonce : String)
    (client_ip user_agent : Option String) (now : Nat) :
    ChallengeResult × DBState :=
  match get_client_by_link_token st lt with
  | none => (.invalidLinkToken, st)
  | some _ =>
    if outstandingCount st lt now ≥ 5 then (.tooManyOutstanding, st)
    else
      let cooldown : Bool :=
        match latestCreated st lt with
        | some t => decide (now - t < 3)
        | none => false
      if cooldown then (.tooFrequent, st)
      else
        match create_challenge st lt nonce 300 client_ip user_agent now with
        | .ok (_, st') => (.issued nonce, cleanup_old_challenges st' now)
        | .error _ => (.serverError, st)

/-- Keyword arguments accepted by `Database.get_messages`
(database.py line 185: `link_token, include_seen, limit, before_id`). -/
def get_messages_accepted_kwargs : List String :=
  ["include_seen", "limit", "before_id"]

/-- Keyword arguments passed at the call site in app.py `fetch_messages`
(lines 338–345). -/
def fetch_call_site_kwargs : List String :=
  ["include_seen", "limit", "before_id", "since_id", "order"]

/-- Python raises `TypeError` when a call passes a keyword argument the
callee's signature does not accept; the handler's `except Exception`
turns that into a 500 response. -/
def fetch_get_messages_call_raises : Bool :=
  fetch_call_site_kwargs.any (fun k => !get_messages_accepted_kwargs.contains k)

/-- Result of `POST /fetch` (app.py `fetch_messages`). -/
inductive FetchResult where
  | page (ids : List Nat) (hasMore : Bool) (nextCursor : Option Nat)  -- 200
  | invalidLinkToken    -- 404 Invalid link_token
  | invalidChallenge    -- 401 Invalid or expired challenge
  | invalidSignature    -- 401 Invalid signature
  | invalidFetchToken   -- 401 Invalid fetch_token
  | authRequired        -- 401 Authentication required
  | serverError         -- 500 (unhandled exception)
  deriving Repr, DecidableEq

/-- The tail of app.py `fetch_messages` after authentication: the call
`db.get_messages(link_token, include_seen=…, limit=…, before_id=…,
since_id=…, order=…)` raises `TypeError` (the method accepts neither
`since_id` nor `order`), so the guarded branch models what the response
would be if the call succeeded, and the raising branch the 500 actually
produced. -/
def fetchPage (st : DBState) (lt : String) (include_seen : Bool)
    (limit : Option Int) (before_id : Option Nat) : FetchResult × DBState :=
  if fetch_get_messages_call_raises then (.serverError, st)
  else
    let rawLimit : Int := limit.getD 50
    let msgs := get_messages st lt include_seen limit before_id
    (.page (msgs.map (fun m => m.id))
      (decide ((msgs.length : Int) = rawLimit))
      ((msgs.getLast?).map (fun m => m.id)), st)

/-- app.py `fetch_messages` (lines 263–376): client lookup, then the
polymorphic authentication (challenge-signature takes precedence when both
`challenge_signature` and `challenge` are truthy; a valid signature marks
the challenge used, an invalid one returns 401 leaving it unused; else the
bearer path via `verify_fetch_token`), then the pagination query. -/
def fetch_messages (hash : String → String)
    (verify : String → String → String → Bool) (st : DBState)
    (lt : String) (ch_nonce ch_sig auth_header : Option String)
    (include_seen : Bool) (limit : Option Int)
    (before_id since_id : Option Nat) (order : String) (now : Nat) :
    FetchResult × DBState :=
  match get_client_by_link_token st lt with
  | none => (.invalidLinkToken, st)
  | some client =>
    if truthy ch_sig && truthy ch_nonce then
      match get_challenge st lt (ch_nonce.getD "") now with
      | none => (.invalidChallenge, st)
      | some ch =>
        if verify client.public_key (ch_nonce.getD "") (ch_sig.getD "") then
          match mark_challenge_used st ch.id with
          | .ok st' => fetchPage st' lt include_seen limit before_id
          | .error _ => (.serverError, st)
        else (.invalidSignature, st)
    else
      match bearerTok auth_header with
      | some tok =>
        if verify_fetch_token hash st lt tok then
          fetchPage st lt include_seen limit before_id
        else (.invalidFetchToken, st)
      | none => (.authRequired, st)

/-- Result of `POST /ack` (app.py `acknowledge_messages`). -/
inductive AckResult where
  | counted (count : Nat)  -- 200, count = len(message_ids)
  | invalidLinkToken       -- 404
  | authFailed             -- 401 Authentication failed
  | serverError            -- 500
  deriving Repr, DecidableEq

/-- app.py `acknowledge_messages` (lines 378–430): client lookup, the same
two-method authentication (here every authentication failure collapses to
401 "Authentication failed"), then `Database.mark_messages_seen` and a
response whose `count` is `len(message_ids)`. -/
def acknowledge_messages (hash : String → String)
    (verify : String → String → String → Bool) (st : DBState)
    (lt : String) (ch_nonce ch_sig auth_header : Option String)
    (message_ids : List Nat) (now : Nat) : AckResult × DBState :=
  match get_client_by_link_token st lt with
  | none => (.invalidLinkToken, st)
  | some client =>
    let afterAuth : DBState → AckResult × DBState := fun s =>
      match mark_messages_seen s lt message_ids with
      | .ok s2 => (.counted message_ids.length, s2)
      | .error _ => (.serverError, s)
    if truthy ch_sig && truthy ch_nonce then
      match get_challenge st lt (ch_nonce.getD "") now with
      | some ch =>
        if verify client.public_key (ch_nonce.getD "") (ch_sig.getD "") then
          match mark_challenge_used st ch.id with
          | .ok st' => afterAuth st'
          | .error _ => (.serverError, st)
        else (.authFailed, st)
      | none => (.authFailed, st)
    else
      match bearerTok auth_header with
      | some tok =>
        if verify_fetch_token hash st lt tok then afterAuth st
        else (.authFailed, st)
      | none => (.authFailed, st)

/-- Result of `POST /check_contact` (app.py `check_contact`). -/
inductive ContactResult where
  | found (lt : String) (nickname : Option String)  -- 200 exists=true
  | notExists                                       -- 200 exists=false
  deriving Repr, DecidableEq

/-- app.py `check_contact` (lines 432–462): a single
`get_client_info_by_link` lookup; a missing row (including the
not-connected case, where the lookup returns `None`) answers
`{'exists': False}` with HTTP 200. -/
def check_contact (st : DBState) (lt : String) : ContactResult :=
  match get_client_info_by_link st lt with
  | some c => .found c.link_token c.display_name
  | none => .notExists

/-- Result of `POST /request_message_permission`
(app.py `request_message_permission`). -/
inductive PermReqResult where
  | alreadyGranted           -- 200 Permission already granted
  | created (request_id : Nat)  -- 201 status pending
  | fromNotFound             -- 404 Invalid from_link_token
  | toNotFound               -- 404 Invalid to_link_token
  | serverError              -- 500
  deriving Repr, DecidableEq

/-- app.py `request_message_permission` (lines 464–508): sanitizes the
nickname (default `'Anonymous'`), verifies both clients exist, answers
`already granted` without inserting when an accepted record exists for the
ordered pair, and otherwise always inserts a fresh pending record. -/
def request_message_permission (st : DBState) (f t : String)
    (from_nickname : Option String) (now : Nat) : PermReqResult × DBState :=
  let nick := sanitize_input (from_nickname.getD "Anonymous")
  match get_client_by_link_token st f with
  | none => (.fromNotFound, st)
  | some _ =>
    match get_client_by_link_token st t with
    | none => (.toNotFound, st)
    | some _ =>
      if check_message_permission st f t then (.alreadyGranted, st)
      else
        match create_message_request st f t nick now with
        | .ok (id, st') => (.created id, st')
        | .error _ => (.serverError, st)

/-! ## Concrete instances of the external capabilities and sample states

The endpoint models are parametric in the stdlib/crypto capabilities; the
closed evaluations below instantiate them with small executable stand-ins
(an injective-on-the-inputs-used hash, a signature check that accepts the
message itself as its signature, a byte decode that fails on the marker
string "BAD"). -/

/-- Sample hash capability. -/
def hash0 : String → String := fun s => s ++ "#"

/-- Sample Ed25519 verification capability: a signature is valid iff it
equals the signed message. -/
def verify0 : String → String → String → Bool := fun _ msg sig => msg == sig

/-- Sample base64 decode capability. -/
def decode0 : String → Option (List Nat) :=
  fun s => if s == "BAD" then none else some (s.data.map Char.toNat)

/-- Sample JSON serialization capability. -/
def ser0 : String → String := fun s => s

/-- Sample registered identity "A". -/
def clientA : Client :=
  { id := 1, link_token := "A", public_key := "pkA", public_key_hash := "ha"
    key_type := "ed25519", display_name := some "Alice"
    fetch_token_hash := hash0 "tokA", created_at := 0 }

/-- Sample registered identity "B". -/
def clientB : Client :=
  { id := 2, link_token := "B", public_key := "pkB", public_key_hash := "hb"
    key_type := "ed25519", display_name := some "Bob"
    fetch_token_hash := hash0 "tokB", created_at := 0 }

/-- A store that failed to connect but whose tables contain identity "A"
(the `Database` object starts with `connected = False` when
`pymysql.connect` raises, regardless of what the MySQL server holds). -/
def stDisc : DBState :=
  { connected := false, clients := [clientA], messages := [], challenges := []
    message_requests := [], next_message_id := 1, next_challenge_id := 1
    next_request_id := 1 }

/-- A connected store with identities "A" and "B" and nothing else. -/
def stAB : DBState :=
  { connected := true, clients := [clientA, clientB], messages := []
    challenges := [], message_requests := [], next_message_id := 1
    next_challenge_id := 1, next_request_id := 1 }

/-- A connected store with identities "A" and "B", one unseen message for
each: id 1 addressed to "A" and id 7 addressed to "B". -/
def stMix : DBState :=
  { connected := true, clients := [clientA, clientB]
    messages :=
      [{ id := 1, link_token := "A", encrypted_message := "m1"
         created_at := 1, seen := false, metadata := none },
       { id := 7, link_token := "B", encrypted_message := "m7"
         created_at := 2, seen := false, metadata := none }]
    challenges := [], message_requests := [], next_message_id := 8
    next_challenge_id := 1, next_request_id := 1 }

/-- The i-th sample unseen message for recipient "A". -/
def msgA (i : Nat) : Message :=
  { id := i, link_token := "A", encrypted_message := "c", created_at := i
    seen := false, metadata := none }

/-- A connected store where recipient "A"'s mailbox holds exactly the
unseen messages with ids 1,2,3,4,5. -/
def st15 : DBState :=
  { connected := true, clients := [clientA]
    messages := [msgA 1, msgA 2, msgA 3, msgA 4, msgA 5]
    challenges := [], message_requests := [], next_message_id := 6
    next_challenge_id := 1, next_request_id := 1 }

/-! ## General lemmas -/

/-- A successful client lookup implies the store is connected. -/
theorem connected_of_get_client {st : DBState} {lt : String} {c : Client}
    (h : get_client_by_link_token st lt = some c) : st.connected = true := by
  by_cases hc : st.connected
  · exact hc
  · simp [get_client_by_link_token, hc] at h

/-! ## Claims -/

/-- C5: for every stored identity and candidate string,
`VerifyFetchToken(linkToken, candidate)` returns true iff the hash of the
candidate equals the stored `fetch_token_hash`; a candidate whose hash
differs from an accepted one (e.g. after altering one byte) is rejected;
and when no identity exists for the link token it returns false rather
than raising. -/
theorem verify_fetch_token_spec (hash : String → String) (st : DBState)
    (lt cand : String) :
    (verify_fetch_token hash st lt cand = true ↔
      ∃ c, get_client_by_link_token st lt = some c ∧
        c.fetch_token_hash = hash cand)
    ∧ (get_client_by_link_token st lt = none →
        verify_fetch_token hash st lt cand = false)
    ∧ (∀ cand', verify_fetch_token hash st lt cand = true →
        hash cand' ≠ hash cand →
        verify_fetch_token hash st lt cand' = false) := by
  unfold verify_fetch_token get_client_by_link_token
  by_cases h : st.connected
  · simp only [h, Bool.not_true, Bool.false_eq_true, if_false]
    cases hf : st.clients.find? (fun c => c.link_token == lt) with
    | none => simp
    | some c =>
      refine ⟨⟨fun hh => ⟨c, rfl, beq_iff_eq.mp hh⟩, ?_⟩, ?_, ?_⟩
      · rintro ⟨c1, hc1, hh⟩
        injection hc1 with h2
        subst h2
        exact beq_iff_eq.mpr hh
      · intro hx; cases hx
      · intro cand' hcand hne
        have hc2 : c.fetch_token_hash = hash cand := beq_iff_eq.mp hcand
        exact beq_eq_false_iff_ne.mpr
          (fun heq => hne ((hc2.symm.trans heq).symm))
  · simp [h]

/-- C5 witness: concrete evaluations of `verify_fetch_token_spec`. -/
theorem verify_fetch_token_spec_witness :
    verify_fetch_token hash0 stAB "A" "tokA" = true
    ∧ verify_fetch_token hash0 stAB "A" "tokB" = false
    ∧ verify_fetch_token hash0 stAB "Z" "tokA" = false :=
  ⟨by decide,
   (verify_fetch_token_spec hash0 stAB "A" "tokA").2.2 "tokB" (by decide)
     (by decide),
   (verify_fetch_token_spec hash0 stAB "Z" "tokA").2.1 (by decide)⟩

/-- C3 counterexample: the store is unavailable (`connected = false`) while
its `clients` table holds the identity with link token "A", yet
`check_contact` answers with the success response `exists = false` — the
operation answers as if the identity does not exist instead of failing
with a store-unavailable error. -/
theorem unavailable_store_check_contact_cex :
    stDisc.connected = false
    ∧ stDisc.clients.map (fun c => c.link_token) = ["A"]
    ∧ check_contact stDisc "A" = .notExists := by
  decide

/-- C3 amended: under an unavailable store only the mutating `Database`
methods fail fast (they raise "Database connection not available",
surfaced as HTTP 500); every read method silently returns a sentinel
success value — lookups report the identity as absent, `check_contact`
answers `exists = false`, `verify_fetch_token` returns false,
`get_messages` returns the empty page, `check_message_permission` returns
false and `get_challenge` reports no challenge. -/
theorem unavailable_store_read_write_split
    (hash metaSer : String → String) (st : DBState)
    (h : st.connected = false)
    (lt f t enc nick nonce tok : String) (meta : Option String)
    (ids : List Nat) (inc : Bool) (limit : Option Int) (bid : Option Nat)
    (now cid : Nat) (ip ua : Option String) :
    check_contact st lt = .notExists
    ∧ get_client_by_link_token st lt = none
    ∧ verify_fetch_token hash st lt tok = false
    ∧ get_messages st lt inc limit bid = []
    ∧ check_message_permission st f t = false
    ∧ get_challenge st lt nonce now = none
    ∧ store_message metaSer st lt enc meta now = .error dbUnavailableMsg
    ∧ mark_messages_seen st lt ids = .error dbUnavailableMsg
    ∧ create_challenge st lt nonce 300 ip ua now = .error dbUnavailableMsg
    ∧ mark_challenge_used st cid = .error dbUnavailableMsg
    ∧ create_message_request st f t nick now = .error dbUnavailableMsg := by
  unfold check_contact get_client_info_by_link get_client_by_link_token
    verify_fetch_token get_messages check_message_permission get_challenge
    store_message mark_messages_seen create_challenge mark_challenge_used
    create_message_request
  simp [h]

/-- C3 amended witness: the behavior at the concrete disconnected store. -/
theorem unavailable_store_read_write_split_witness :
    check_contact stDisc "A" = .notExists
    ∧ get_client_by_link_token stDisc "A" = none
    ∧ verify_fetch_token hash0 stDisc "A" "tokA" = false
    ∧ get_messages stDisc "A" false (some 3) none = []
    ∧ check_message_permission stDisc "A" "B" = false
    ∧ get_challenge stDisc "A" "n" 0 = none
    ∧ store_message ser0 stDisc "A" "enc" none 0 = .error dbUnavailableMsg
    ∧ mark_messages_seen stDisc "A" [1] = .error dbUnavailableMsg
    ∧ create_challenge stDisc "A" "n" 300 none none 0 = .error dbUnavailableMsg
    ∧ mark_challenge_used stDisc 1 = .error dbUnavailableMsg
    ∧ create_message_request stDisc "A" "B" "n" 0 = .error dbUnavailableMsg := by
  have hc : stDisc.connected = false := by decide
  exact unavailable_store_read_write_split hash0 ser0 stDisc hc
    "A" "A" "B" "enc" "n" "n" "tokA" none [1] false (some 3) none 0 1 none none

/-- The scoped seen-update with an empty id set touches no row. -/
theorem map_updSeen_nil (msgs : List Message) (lt : String) :
    msgs.map (fun m =>
      if ([] : List Nat).contains m.id && m.link_token == lt then
        { m with seen := true }
      else m) = msgs := by
  induction msgs with
  | nil => rfl
  | cons x xs ih =>
    simp only [List.map_cons]
    rw [ih]
    rfl

/-- `Database.mark_messages_seen` on a connected store always succeeds and
performs the scoped update (for an empty id list the update touches no
row, which coincides with the early return). -/
theorem mark_messages_seen_ok (st : DBState) (lt : String) (ids : List Nat)
    (h : st.connected = true) :
    mark_messages_seen st lt ids = .ok { st with
      messages := st.messages.map (fun m =>
        if ids.contains m.id && m.link_token == lt then { m with seen := true }
        else m) } := by
  obtain ⟨conn, cl, ms, ch, mr, n1, n2, n3⟩ := st
  cases h
  unfold mark_messages_seen
  simp only [Bool.not_true, Bool.false_eq_true, if_false]
  by_cases hids : ids.isEmpty
  · have hnil : ids = [] := by
      cases ids with
      | nil => rfl
      | cons a as => simp [List.isEmpty] at hids
    subst hnil
    show Except.ok _ = _
    rw [map_updSeen_nil]
  · simp [hids]

/-- `Database.mark_challenge_used` on a connected store always succeeds. -/
theorem mark_challenge_used_ok (st : DBState) (i : Nat)
    (h : st.connected = true) :
    mark_challenge_used st i = .ok { st with
      challenges := st.challenges.map (fun c =>
        if c.id == i then { c with used := true } else c) } := by
  unfold mark_challenge_used
  simp [h]

/-- A non-empty optional string field is truthy. -/
theorem truthy_some {s : String} (h : s ≠ "") : truthy (some s) = true := by
  unfold truthy
  simp [h]

/-- C1 (code_bug evidence): app.py `fetch_messages` passes the keyword
arguments `since_id` and `order` to `Database.get_messages`, whose
signature accepts neither, so the call raises `TypeError` and every
authenticated fetch — including the claimed DESC/limit-3 scenario over a
mailbox holding exactly the unseen messages 1..5 — answers HTTP 500
instead of a page.  Called through its real signature, the database-layer
query does produce the claimed pages: `[5,4,3]` (a full page of the raw
limit 3, so `has_more` would be true, with last id 3 as `next_cursor`)
and, with `before_id=3`, `[2,1]`. -/
theorem fetch_since_order_kwargs_crash :
    fetch_get_messages_call_raises = true
    ∧ fetch_messages hash0 verify0 st15 "A" none none (some "Bearer tokA")
        false (some 3) none none "DESC" 100 = (.serverError, st15)
    ∧ (get_messages st15 "A" false (some 3) none).map (fun m => m.id)
        = [5, 4, 3]
    ∧ decide (((get_messages st15 "A" false (some 3) none).length : Int)
        = ((some (3 : Int)).getD 50)) = true
    ∧ ((get_messages st15 "A" false (some 3) none).getLast?).map
        (fun m => m.id) = some 3
    ∧ (get_messages st15 "A" false (some 3) (some 3)).map (fun m => m.id)
        = [2, 1] := by
  decide

/-- `acknowledge_messages` with a valid bearer token runs the scoped
seen-update and reports the length of the supplied id list. -/
theorem ack_bearer (hash : String → String)
    (verify : String → String → String → Bool) (st : DBState)
    (lt : String) (auth_header : Option String) (tok : String)
    (ids : List Nat) (now : Nat) (client : Client)
    (hc : get_client_by_link_token st lt = some client)
    (htok : bearerTok auth_header = some tok)
    (hver : verify_fetch_token hash st lt tok = true) :
    acknowledge_messages hash verify st lt none none auth_header ids now
      = (.counted ids.length, { st with
          messages := st.messages.map (fun m =>
            if ids.contains m.id && m.link_token == lt then
              { m with seen := true }
            else m) }) := by
  unfold acknowledge_messages
  rw [hc]
  simp only [truthy, Bool.and_self, Bool.false_eq_true, if_false, htok, hver,
    if_true, mark_messages_seen_ok st lt ids (connected_of_get_client hc)]

/-- C9: an authenticated `MarkSeen` call sets `seen = true` exactly on the
rows whose id is among the supplied ids and whose `link_token` is the
caller's, succeeds without error even when an id belongs to a different
recipient or to no row, leaves every other row and every other table
untouched, and is a no-op on an empty id list. -/
theorem mark_seen_scoped_frame (hash : String → String)
    (verify : String → String → String → Bool) (st : DBState)
    (lt : String) (auth_header : Option String) (tok : String)
    (ids : List Nat) (now : Nat) (client : Client)
    (hc : get_client_by_link_token st lt = some client)
    (htok : bearerTok auth_header = some tok)
    (hver : verify_fetch_token hash st lt tok = true) :
    ∃ st', acknowledge_messages hash verify st lt none none auth_header ids
        now = (.counted ids.length, st')
      ∧ st'.messages.length = st.messages.length
      ∧ (∀ i, st'.messages.get? i = (st.messages.get? i).map (fun m =>
          if ids.contains m.id && m.link_token == lt then
            { m with seen := true }
          else m))
      ∧ (∀ i m, st.messages.get? i = some m →
          (m.id ∈ ids → m.link_token = lt →
            st'.messages.get? i = some { m with seen := true })
          ∧ (m.link_token ≠ lt → st'.messages.get? i = some m)
          ∧ (m.id ∉ ids → st'.messages.get? i = some m))
      ∧ (ids = [] → st' = st)
      ∧ st'.clients = st.clients ∧ st'.challenges = st.challenges
      ∧ st'.message_requests = st.message_requests := by
  refine ⟨_, ack_bearer hash verify st lt auth_header tok ids now client hc
    htok hver, ?_, ?_, ?_, ?_, rfl, rfl, rfl⟩
  · exact List.length_map _ _
  · intro i
    exact List.get?_map _ _ _
  · intro i m hm
    have hmap := List.get?_map (fun m : Message =>
      if ids.contains m.id && m.link_token == lt then { m with seen := true }
      else m) st.messages i
    rw [hm] at hmap
    refine ⟨?_, ?_, ?_⟩
    · intro hid hlk
      rw [hmap]
      simp [hid, hlk]
    · intro hlk
      rw [hmap]
      simp [hlk]
    · intro hid
      rw [hmap]
      simp [hid]
  · intro hnil
    subst hnil
    rw [map_updSeen_nil]

/-- C9 witness: recipient "A" acks ids `[7, 1]` where id 7 belongs to
recipient "B" and id 1 to "A": the call succeeds, flips only row 1, and
leaves row 7 untouched; the empty id list is a no-op. -/
theorem mark_seen_scoped_frame_witness :
    (acknowledge_messages hash0 verify0 stMix "A" none none
        (some "Bearer tokA") [7, 1] 0).1 = .counted 2
    ∧ ((acknowledge_messages hash0 verify0 stMix "A" none none
        (some "Bearer tokA") [7, 1] 0).2.messages.map
          (fun m => (m.id, m.seen))) = [(1, true), (7, false)]
    ∧ (acknowledge_messages hash0 verify0 stMix "A" none none
        (some "Bearer tokA") [] 0).2 = stMix := by
  obtain ⟨st', heq, -, -, -, -, -, -, -⟩ :=
    mark_seen_scoped_frame hash0 verify0 stMix "A" (some "Bearer tokA")
      "tokA" [7, 1] 0 clientA (by decide) (by decide) (by decide)
  refine ⟨?_, by decide, by decide⟩
  rw [heq]
  rfl

/-- C10: the `count` field of a successful `/ack` response equals the
number of ids the caller supplied, whatever rows those ids actually
touched — on both authentication paths (bearer token and
challenge-signature). -/
theorem ack_count_is_input_length (hash : String → String)
    (verify : String → String → String → Bool) (st : DBState)
    (lt : String) (ids : List Nat) (now : Nat) (client : Client)
    (hc : get_client_by_link_token st lt = some client) :
    (∀ auth_header tok, bearerTok auth_header = some tok →
      verify_fetch_token hash st lt tok = true →
      (acknowledge_messages hash verify st lt none none auth_header ids
        now).1 = .counted ids.length)
    ∧ (∀ nonce sig ch, nonce ≠ "" → sig ≠ "" →
        get_challenge st lt nonce now = some ch →
        verify client.public_key nonce sig = true →
        (acknowledge_messages hash verify st lt (some nonce) (some sig) none
          ids now).1 = .counted ids.length) := by
  constructor
  · intro auth_header tok htok hver
    rw [ack_bearer hash verify st lt auth_header tok ids now client hc htok
      hver]
  · intro nonce sig ch hn hs hch hver
    unfold acknowledge_messages
    rw [hc]
    simp only [truthy_some hn, truthy_some hs, Bool.and_self, if_true,
      Option.getD_some, hch, hver,
      mark_challenge_used_ok st ch.id (connected_of_get_client hc)]
    rw [mark_messages_seen_ok { st with
      challenges := st.challenges.map (fun c =>
        if c.id == ch.id then { c with used := true } else c) } lt ids
      (connected_of_get_client hc)]

/-- C10 witness: recipient "A" acks `[7, 9]` — id 7 belongs to recipient
"B" and id 9 to no row at all — yet the reported count is 2 while no row
of "A" changed. -/
theorem ack_count_is_input_length_witness :
    (acknowledge_messages hash0 verify0 stMix "A" none none
        (some "Bearer tokA") [7, 9] 0).1 = .counted 2
    ∧ ((acknowledge_messages hash0 verify0 stMix "A" none none
        (some "Bearer tokA") [7, 9] 0).2.messages.map
          (fun m => (m.id, m.seen))) = [(1, false), (7, false)] := by
  refine ⟨(ack_count_is_input_length hash0 verify0 stMix "A" [7, 9] 0 clientA
    (by decide)).1 (some "Bearer tokA") "tokA" (by decide) (by decide), ?_⟩
  decide

/-- `Database.store_message` on a connected store always succeeds and
appends the row. -/
theorem store_message_ok (metaSer : String → String) (st : DBState)
    (lt enc : String) (meta : Option String) (now : Nat)
    (h : st.connected = true) :
    store_message metaSer st lt enc meta now
      = .ok (st.next_message_id, { st with
          messages := st.messages ++
            [Message.mk st.next_message_id lt enc now false
              (match meta with
                | some m => if m.isEmpty then none else some (metaSer m)
                | none => none)]
          next_message_id := st.next_message_id + 1 }) := by
  unfold store_message
  simp [h]

/-- C8: `/send` rejects a payload whose decoded size exceeds 16 KiB with
`PayloadTooLarge` and accepts one of exactly 16 KiB; rejects metadata whose
serialized size exceeds 4 KiB with `MetadataTooLarge`; rejects a payload
the base64 decoder refuses with `InvalidEncoding`; and stores no message
row in any of these failure cases (the store state is unchanged). -/
theorem send_size_and_encoding_limits (decode : String → Option (List Nat))
    (metaSer : String → String) (st : DBState) (to_lt : String)
    (from_lt : Option String) (enc : String) (meta : Option String)
    (now : Nat) :
    (decode enc = none →
      send_message decode metaSer st to_lt from_lt enc meta now
        = (.invalidBase64, st))
    ∧ (∀ bytes, decode enc = some bytes → bytes.length > 16 * 1024 →
        send_message decode metaSer st to_lt from_lt enc meta now
          = (.payloadTooLarge, st))
    ∧ (∀ bytes m, decode enc = some bytes → ¬ bytes.length > 16 * 1024 →
        meta = some m → (metaSer m).length > 4 * 1024 →
        send_message decode metaSer st to_lt from_lt enc meta now
          = (.metadataTooLarge, st))
    ∧ (∀ bytes client, decode enc = some bytes → bytes.length = 16 * 1024 →
        meta = none → get_client_by_link_token st to_lt = some client →
        truthy from_lt = false →
        (send_message decode metaSer st to_lt from_lt enc meta now).1
          = .sent st.next_message_id
        ∧ (send_message decode metaSer st to_lt from_lt enc meta
            now).2.messages.length = st.messages.length + 1) := by
  refine ⟨?_, ?_, ?_, ?_⟩
  · intro hdec
    unfold send_message
    rw [hdec]
  · intro bytes hdec hlen
    unfold send_message
    rw [hdec]
    simp only [if_pos hlen]
  · intro bytes m hdec hlen hmeta hm
    subst hmeta
    unfold send_message
    simp only [hdec, if_neg hlen, decide_eq_true_eq, if_pos hm]
  · intro bytes client hdec hlen hmeta hcl hflt
    have hconn := connected_of_get_client hcl
    have hlen2 : ¬ bytes.length > 16 * 1024 := by omega
    subst hmeta
    have hsend : send_message decode metaSer st to_lt from_lt enc none now
        = (.sent st.next_message_id, { st with
            messages := st.messages ++
              [Message.mk st.next_message_id to_lt enc now false none]
            next_message_id := st.next_message_id + 1 }) := by
      unfold send_message
      simp only [hdec, if_neg hlen2, hcl, hflt, Bool.false_eq_true, if_false,
        store_message_ok metaSer st to_lt enc none now hconn]
    rw [hsend]
    exact ⟨rfl, by simp⟩

/-- Decoder stand-in producing a 17 KiB payload. -/
def dec17 : String → Option (List Nat) := fun _ => some (List.replicate 17408 0)

/-- Decoder stand-in producing an exactly 16 KiB payload. -/
def dec16 : String → Option (List Nat) := fun _ => some (List.replicate 16384 0)

/-- Decoder stand-in that rejects its input (invalid base64). -/
def decBad : String → Option (List Nat) := fun _ => none

/-- Serializer stand-in producing a 5000-byte document. -/
def serBig : String → String := fun _ => String.mk (List.replicate 5000 (Char.ofNat 97))

/-- C8 witness: a 17 KiB payload is rejected, invalid base64 is rejected,
oversized metadata is rejected — all leaving the store untouched — and an
exactly 16 KiB payload is stored. -/
theorem send_size_and_encoding_limits_witness :
    send_message decBad ser0 stAB "A" none "x" none 0 = (.invalidBase64, stAB)
    ∧ send_message dec17 ser0 stAB "A" none "x" none 0
        = (.payloadTooLarge, stAB)
    ∧ send_message dec16 serBig stAB "A" none "x" (some "m") 0
        = (.metadataTooLarge, stAB)
    ∧ (send_message dec16 ser0 stAB "A" none "x" none 0).1 = .sent 1
    ∧ (send_message dec16 ser0 stAB "A" none "x" none 0).2.messages.length
        = 1 := by
  have hstored := (send_size_and_encoding_limits dec16 ser0 stAB "A" none "x"
    none 0).2.2.2 (List.replicate 16384 0) clientA rfl
    (by rw [List.length_replicate]) rfl (by decide) rfl
  refine ⟨(send_size_and_encoding_limits decBad ser0 stAB "A" none "x" none
      0).1 rfl,
    (send_size_and_encoding_limits dec17 ser0 stAB "A" none "x" none 0).2.1
      (List.replicate 17408 0) rfl
      (by rw [List.length_replicate]; norm_num),
    (send_size_and_encoding_limits dec16 serBig stAB "A" none "x" (some "m")
      0).2.2.1 (List.replicate 16384 0) "m" rfl
      (by rw [List.length_replicate]; norm_num) rfl
      (by show (String.mk (List.replicate 5000 (Char.ofNat 97))).length
            > 4 * 1024
          rw [String.length_mk, List.length_replicate]
          norm_num),
    hstored.1, hstored.2⟩

/-- `Database.create_message_request` on a connected store always succeeds
and appends the pending row. -/
theorem create_message_request_ok (st : DBState) (f t nick : String)
    (now : Nat) (h : st.connected = true) :
    create_message_request st f t nick now
      = .ok (st.next_request_id, { st with
          message_requests := st.message_requests ++
            [MessageRequest.mk st.next_request_id f t nick .pending now now]
          next_request_id := st.next_request_id + 1 }) := by
  unfold create_message_request
  simp [h]

/-- On a connected store, `check_message_permission` holds exactly when an
accepted record exists for the ordered pair. -/
theorem check_message_permission_iff (st : DBState) (f t : String)
    (hconn : st.connected = true) :
    check_message_permission st f t = true ↔
      ∃ r ∈ st.message_requests, r.from_link_token = f
        ∧ r.to_link_token = t ∧ r.status = .accepted := by
  constructor
  · intro hx
    have hx2 : st.message_requests.any (fun r =>
        r.from_link_token == f && r.to_link_token == t
          && r.status == ReqStatus.accepted) = true := by
      unfold check_message_permission at hx
      simpa [hconn] using hx
    obtain ⟨r, hr, hpred⟩ := List.any_eq_true.mp hx2
    have h1 := Bool.and_eq_true_iff.mp hpred
    have h2 := Bool.and_eq_true_iff.mp h1.1
    exact ⟨r, hr, beq_iff_eq.mp h2.1, beq_iff_eq.mp h2.2,
      beq_iff_eq.mp h1.2⟩
  · rintro ⟨r, hr, h1, h2, h3⟩
    unfold check_message_permission
    simp only [hconn, Bool.not_true, Bool.false_eq_true, if_false]
    exact List.any_eq_true.mpr ⟨r, hr, by simp [h1, h2, h3]⟩

/-- C6: between two existing identities, `Request(from, to, nickname)`
answers `already granted` without touching the store exactly when an
accepted record exists for the ordered pair `(from, to)` (which is what
`check_message_permission` decides); in every other case — pending
records for the same pair included — it appends a fresh pending record. -/
theorem request_permission_dedup_only_accepted (st : DBState)
    (f t : String) (nick : Option String) (now : Nat) (fc tc : Client)
    (hf : get_client_by_link_token st f = some fc)
    (ht : get_client_by_link_token st t = some tc) :
    (check_message_permission st f t = true ↔
      ∃ r ∈ st.message_requests, r.from_link_token = f
        ∧ r.to_link_token = t ∧ r.status = .accepted)
    ∧ (check_message_permission st f t = true →
        request_message_permission st f t nick now = (.alreadyGranted, st))
    ∧ (check_message_permission st f t = false →
        request_message_permission st f t nick now
          = (.created st.next_request_id, { st with
              message_requests := st.message_requests ++
                [MessageRequest.mk st.next_request_id f t
                  (sanitize_input (nick.getD "Anonymous")) .pending now now]
              next_request_id := st.next_request_id + 1 })) := by
  have hconn := connected_of_get_client hf
  refine ⟨check_message_permission_iff st f t hconn, ?_, ?_⟩
  · intro hp
    unfold request_message_permission
    simp only [hf, ht, hp, if_true]
  · intro hp
    unfold request_message_permission
    simp only [hf, ht, hp, Bool.false_eq_true, if_false,
      create_message_request_ok st f t
        (sanitize_input (nick.getD "Anonymous")) now hconn]

/-- A pending permission request from "B" to "A". -/
def reqPend : MessageRequest :=
  { id := 1, from_link_token := "B", to_link_token := "A"
    from_nickname := "Bob", status := .pending, created_at := 0
    updated_at := 0 }

/-- An accepted permission request from "B" to "A". -/
def reqAcc : MessageRequest :=
  { id := 1, from_link_token := "B", to_link_token := "A"
    from_nickname := "Bob", status := .accepted, created_at := 0
    updated_at := 0 }

/-- Store of `stAB` with one pending request from "B" to "A". -/
def stPend : DBState :=
  { stAB with message_requests := [reqPend], next_request_id := 2 }

/-- Store of `stAB` with one accepted request from "B" to "A". -/
def stAcc : DBState :=
  { stAB with message_requests := [reqAcc], next_request_id := 2 }

/-- C6 witness: with an accepted record present the call answers
`already granted` and inserts nothing; with only a pending record for the
same pair present it inserts a second pending record (no dedup). -/
theorem request_permission_dedup_only_accepted_witness :
    request_message_permission stAcc "B" "A" (some "Bob") 5
      = (.alreadyGranted, stAcc)
    ∧ (request_message_permission stPend "B" "A" (some "Bob") 5).1
      = .created 2
    ∧ ((Prod.snd (request_message_permission stPend "B" "A" (some "Bob")
          5)).message_requests.map (fun r => (r.id, r.from_link_token,
          r.to_link_token, r.status)))
      = [(1, "B", "A", .pending), (2, "B", "A", .pending)] := by
  have h1 := (request_permission_dedup_only_accepted stAcc "B" "A"
    (some "Bob") 5 clientB clientA (by decide) (by decide)).2.1 (by decide)
  have h2 := (request_permission_dedup_only_accepted stPend "B" "A"
    (some "Bob") 5 clientB clientA (by decide) (by decide)).2.2 (by decide)
  refine ⟨h1, ?_, ?_⟩
  · rw [h2]
    rfl
  · rw [h2]
    decide

/-- `Database.create_challenge` on a connected store always succeeds and
appends the row with `expires_at = now + expires_in_seconds`. -/
theorem create_challenge_ok (st : DBState) (lt nonce : String) (es : Nat)
    (ip ua : Option String) (now : Nat) (h : st.connected = true) :
    create_challenge st lt nonce es ip ua now
      = .ok (st.next_challenge_id, { st with
          challenges := st.challenges ++
            [Challenge.mk st.next_challenge_id lt nonce ip ua now (now + es)
              false]
          next_challenge_id := st.next_challenge_id + 1 }) := by
  unfold create_challenge
  simp [h]

/-- C7: challenge issuance applies its two defenses in order — with five
or more outstanding (unused, unexpired) challenges the call fails with
`TooManyOutstanding` no matter how recent the last issuance was; below
that cap a most-recent challenge younger than 3 seconds fails the call
with `TooFrequent`; and when both checks pass a fresh challenge with
`expires_at = now + 300` is stored. -/
theorem challenge_rate_limits (st : DBState) (lt nonce : String)
    (ip ua : Option String) (now : Nat) (c : Client)
    (hc : get_client_by_link_token st lt = some c) :
    (outstandingCount st lt now ≥ 5 →
      challenge_request st lt nonce ip ua now = (.tooManyOutstanding, st))
    ∧ (outstandingCount st lt now < 5 →
        ∀ tl, latestCreated st lt = some tl → now - tl < 3 →
          challenge_request st lt nonce ip ua now = (.tooFrequent, st))
    ∧ (outstandingCount st lt now < 5 →
        (∀ tl, latestCreated st lt = some tl → ¬ now - tl < 3) →
        ∃ st', challenge_request st lt nonce ip ua now = (.issued nonce, st')
          ∧ Challenge.mk st.next_challenge_id lt nonce ip ua now (now + 300)
              false ∈ st'.challenges) := by
  have hconn := connected_of_get_client hc
  refine ⟨?_, ?_, ?_⟩
  · intro h5
    unfold challenge_request
    simp only [hc, if_pos h5]
  · intro h5 tl htl hage
    unfold challenge_request
    simp only [hc, if_neg (not_le.mpr h5), htl, decide_eq_true_eq,
      if_pos hage]
  · intro h5 hcool
    unfold challenge_request
    simp only [hc, if_neg (not_le.mpr h5)]
    cases hlc : latestCreated st lt with
    | none =>
      simp only [hlc, Bool.false_eq_true, if_false,
        create_challenge_ok st lt nonce 300 ip ua now hconn]
      refine ⟨_, rfl, ?_⟩
      unfold cleanup_old_challenges
      simp only [hconn, Bool.not_true, Bool.false_eq_true, if_false]
      refine List.mem_filter.mpr ⟨List.mem_append.mpr (Or.inr ?_), by simp⟩
      exact List.mem_singleton.mpr rfl
    | some tl =>
      have hage : ¬ now - tl < 3 := hcool tl hlc
      simp only [hlc, decide_eq_true_eq, if_neg hage,
        create_challenge_ok st lt nonce 300 ip ua now hconn]
      refine ⟨_, rfl, ?_⟩
      unfold cleanup_old_challenges
      simp only [hconn, Bool.not_true, Bool.false_eq_true, if_false]
      refine List.mem_filter.mpr ⟨List.mem_append.mpr (Or.inr ?_), by simp⟩
      exact List.mem_singleton.mpr rfl

/-- The i-th sample outstanding challenge for "A", created at the given
time and expiring at 1000. -/
def chal (i created : Nat) : Challenge :=
  { id := i, link_token := "A", challenge_nonce := "n", client_ip := none
    user_agent := none, created_at := created, expires_at := 1000
    used := false }

/-- Store of `stAB` with five outstanding challenges for "A", the latest
created 1 second ago (at 499, for `now = 500`). -/
def st5ch : DBState :=
  { stAB with challenges := [chal 1 0, chal 2 1, chal 3 2, chal 4 3,
      chal 5 499], next_challenge_id := 6 }

/-- Store of `stAB` with one outstanding challenge for "A" created
1 second ago. -/
def stCool : DBState :=
  { stAB with challenges := [chal 1 499], next_challenge_id := 2 }

/-- C7 witness: at the cap the sixth request fails with
`TooManyOutstanding` even though the cooldown check would also fire;
below the cap a request 1 second after the previous one fails with
`TooFrequent`; with no prior challenge a fresh one expiring in 300
seconds is stored. -/
theorem challenge_rate_limits_witness :
    challenge_request st5ch "A" "n6" none none 500
      = (.tooManyOutstanding, st5ch)
    ∧ challenge_request stCool "A" "n2" none none 500
      = (.tooFrequent, stCool)
    ∧ ∃ st', challenge_request stAB "A" "n1" none none 500
        = (.issued "n1", st')
      ∧ Challenge.mk 1 "A" "n1" none none 500 800 false ∈ st'.challenges := by
  refine ⟨(challenge_rate_limits st5ch "A" "n6" none none 500 clientA
      (by decide)).1 (by decide),
    (challenge_rate_limits stCool "A" "n2" none none 500 clientA
      (by decide)).2.1 (by decide) 499 (by decide) (by decide), ?_⟩
  exact (challenge_rate_limits stAB "A" "n1" none none 500 clientA
    (by decide)).2.2 (by decide)
    (fun tl htl => by
      rw [show latestCreated stAB "A" = none from by decide] at htl
      cases htl)

/-- C4 counterexample: a send to the existing recipient "A" that supplies
the from-link-token field with the empty string is stored without any
permission check — no accepted record exists for the ordered pair
`("", "A")` (the request table is empty), yet the send succeeds and a
message row is appended, where the claim demands `PermissionDenied` and no
stored row for every send with a supplied `fromLinkToken` lacking
permission.  The handler's `if from_link_token:` tests Python truthiness,
so the supplied empty string takes the anonymous path. -/
theorem empty_from_link_token_bypasses_permission_cex :
    check_message_permission stAB "" "A" = false
    ∧ stAB.message_requests = []
    ∧ (send_message decode0 ser0 stAB "A" (some "") "x" none 0).1 = .sent 1
    ∧ (Prod.snd (send_message decode0 ser0 stAB "A" (some "") "x" none
        0)).messages.length = 1 := by
  decide

/-- C4 amended: for every send that supplies a non-empty `fromLinkToken`,
delivery is stored only if an accepted permission record exists for the
ordered pair `(from, to)` — otherwise the send fails with
`PermissionDenied` (or `NotFound` for an unknown sender) and no message is
stored — and permission is decided on the ordered pair only, so it is not
symmetric; a send whose `fromLinkToken` is omitted, null, or equal to the
empty string (Python truthiness) proceeds unconditionally to an existing
recipient. -/
theorem send_permission_gate (decode : String → Option (List Nat))
    (metaSer : String → String) (st : DBState) (to_lt f enc : String)
    (now : Nat) (bytes : List Nat) (toc : Client)
    (hdec : decode enc = some bytes)
    (hsize : ¬ bytes.length > 16 * 1024)
    (hto : get_client_by_link_token st to_lt = some toc)
    (hf : f ≠ "") :
    (check_message_permission st f to_lt = true ↔
      ∃ r ∈ st.message_requests, r.from_link_token = f
        ∧ r.to_link_token = to_lt ∧ r.status = .accepted)
    ∧ (get_client_by_link_token st f = none →
        send_message decode metaSer st to_lt (some f) enc none now
          = (.senderNotFound, st))
    ∧ (∀ fc, get_client_by_link_token st f = some fc →
        check_message_permission st f to_lt = false →
        send_message decode metaSer st to_lt (some f) enc none now
          = (.permissionDenied, st))
    ∧ (∀ fc, get_client_by_link_token st f = some fc →
        check_message_permission st f to_lt = true →
        (send_message decode metaSer st to_lt (some f) enc none now).1
          = .sent st.next_message_id
        ∧ (Prod.snd (send_message decode metaSer st to_lt (some f) enc none
            now)).messages.length = st.messages.length + 1)
    ∧ (∀ flt : Option String, truthy flt = false →
        (send_message decode metaSer st to_lt flt enc none now).1
          = .sent st.next_message_id
        ∧ (Prod.snd (send_message decode metaSer st to_lt flt enc none
            now)).messages.length = st.messages.length + 1) := by
  have hconn := connected_of_get_client hto
  refine ⟨check_message_permission_iff st f to_lt hconn, ?_, ?_, ?_, ?_⟩
  · intro hfn
    unfold send_message
    simp only [hdec, if_neg hsize, Bool.false_eq_true, if_false, hto,
      truthy_some hf, if_true, Option.getD_some, hfn]
  · intro fc hfc hperm
    unfold send_message
    simp only [hdec, if_neg hsize, Bool.false_eq_true, if_false, hto,
      truthy_some hf, if_true, Option.getD_some, hfc, hperm]
  · intro fc hfc hperm
    have hsend : send_message decode metaSer st to_lt (some f) enc none now
        = (.sent st.next_message_id, { st with
            messages := st.messages ++
              [Message.mk st.next_message_id to_lt enc now false none]
            next_message_id := st.next_message_id + 1 }) := by
      unfold send_message
      simp only [hdec, if_neg hsize, Bool.false_eq_true, if_false, hto,
        truthy_some hf, if_true, Option.getD_some, hfc, hperm,
        store_message_ok metaSer st to_lt enc none now hconn]
    rw [hsend]
    exact ⟨rfl, by simp⟩
  · intro flt hflt
    have hsend : send_message decode metaSer st to_lt flt enc none now
        = (.sent st.next_message_id, { st with
            messages := st.messages ++
              [Message.mk st.next_message_id to_lt enc now false none]
            next_message_id := st.next_message_id + 1 }) := by
      unfold send_message
      simp only [hdec, if_neg hsize, Bool.false_eq_true, if_false, hto,
        hflt, store_message_ok metaSer st to_lt enc none now hconn]
    rw [hsend]
    exact ⟨rfl, by simp⟩

/-- C4 amended witness: with an accepted record for `("B", "A")`, a send
from "B" to "A" is stored; the reverse direction `("A", "B")` is denied
and stores nothing (asymmetry); the anonymous send (no from-token) also
succeeds. -/
theorem send_permission_gate_witness :
    (send_message decode0 ser0 stAcc "A" (some "B") "x" none 0).1 = .sent 1
    ∧ send_message decode0 ser0 stAcc "B" (some "A") "x" none 0
        = (.permissionDenied, stAcc)
    ∧ (send_message decode0 ser0 stAcc "A" none "x" none 0).1 = .sent 1 := by
  have hBA := (send_permission_gate decode0 ser0 stAcc "A" "B" "x" 0
    (List.map Char.toNat "x".data) clientA rfl (by decide) (by decide)
    (by decide)).2.2.2.1 clientB (by decide) (by decide)
  have hAB := (send_permission_gate decode0 ser0 stAcc "B" "A" "x" 0
    (List.map Char.toNat "x".data) clientB rfl (by decide) (by decide)
    (by decide)).2.2.1 clientA (by decide) (by decide)
  have hAnon := (send_permission_gate decode0 ser0 stAcc "A" "F" "x" 0
    (List.map Char.toNat "x".data) clientA rfl (by decide) (by decide)
    (by decide)).2.2.2.2 none rfl
  exact ⟨hBA.1, hAB, hAnon.1⟩

/-- The row `pickLatest` returns belongs to the list. -/
theorem pickLatest_mem {l : List Challenge} {c : Challenge}
    (h : pickLatest l = some c) : c ∈ l := by
  induction l with
  | nil => cases h
  | cons a as ih =>
    unfold pickLatest at h
    cases hp : pickLatest as with
    | none =>
      rw [hp] at h
      injection h with h
      subst h
      exact List.mem_cons_self _ _
    | some b =>
      rw [hp] at h
      by_cases hgt : b.created_at > a.created_at
      · simp only [if_pos hgt] at h
        injection h with h
        subst h
        exact List.mem_cons_of_mem _ (ih hp)
      · simp only [if_neg hgt] at h
        injection h with h
        subst h
        exact List.mem_cons_self _ _

/-- What a successful `Consume` (`Database.get_challenge`) guarantees: the
returned row is stored, matches the identity and nonce, is unexpired and
unused. -/
theorem get_challenge_spec {st : DBState} {lt nonce : String} {now : Nat}
    {ch : Challenge} (h : get_challenge st lt nonce now = some ch) :
    ch ∈ st.challenges ∧ ch.link_token = lt ∧ ch.challenge_nonce = nonce
      ∧ now < ch.expires_at ∧ ch.used = false := by
  unfold get_challenge at h
  by_cases hc : st.connected
  · simp only [hc, Bool.not_true, Bool.false_eq_true, if_false] at h
    have hm := List.mem_filter.mp (pickLatest_mem h)
    have hb1 := Bool.and_eq_true_iff.mp hm.2
    have hb2 := Bool.and_eq_true_iff.mp hb1.1
    have hb3 := Bool.and_eq_true_iff.mp hb2.1
    refine ⟨hm.1, beq_iff_eq.mp hb3.1, beq_iff_eq.mp hb3.2,
      of_decide_eq_true hb2.2, ?_⟩
    cases hu : ch.used
    · rfl
    · rw [hu] at hb1
      cases hb1.2
  · simp [hc] at h

/-- After the consumed challenge is marked used, `Consume` of the same
nonce fails at every time, provided the nonce named at most that one row
(nonces are unforgeable random values, so a stored nonce is unique to its
challenge). -/
theorem get_challenge_after_burn (st : DBState) (lt nonce : String)
    (now t : Nat) (ch : Challenge)
    (hconn : st.connected = true)
    (hch : get_challenge st lt nonce now = some ch)
    (huniq : ∀ c ∈ st.challenges, c.link_token = lt →
      c.challenge_nonce = nonce → c.id = ch.id) :
    get_challenge { st with challenges := st.challenges.map (fun c =>
      if c.id == ch.id then { c with used := true } else c) } lt nonce t
      = none := by
  unfold get_challenge
  simp only [hconn, Bool.not_true, Bool.false_eq_true, if_false]
  have hfil : (st.challenges.map (fun c =>
      if c.id == ch.id then { c with used := true } else c)).filter (fun c =>
      c.link_token == lt && c.challenge_nonce == nonce
        && decide (t < c.expires_at) && !c.used) = [] := by
    rw [List.filter_eq_nil]
    intro a ha
    obtain ⟨c, hcmem, hceq⟩ := List.mem_map.mp ha
    by_cases hid : (c.id == ch.id) = true
    · rw [if_pos hid] at hceq
      subst hceq
      simp
    · rw [if_neg hid] at hceq
      subst hceq
      intro hp
      have hb1 := Bool.and_eq_true_iff.mp hp
      have hb2 := Bool.and_eq_true_iff.mp hb1.1
      have hb3 := Bool.and_eq_true_iff.mp hb2.1
      exact hid (beq_iff_eq.mpr
        (huniq c hcmem (beq_iff_eq.mp hb3.1) (beq_iff_eq.mp hb3.2)))
  rw [hfil]
  rfl

/-- C2: a challenge nonce is burned exactly by a successful
challenge-signature authentication.  Before the call the consumed row is
stored and unused.  A wrongly-signed attempt answers 401
`Invalid signature` and leaves the store — in particular the challenge's
`used` flag — untouched, so the same nonce still authenticates a later
correctly-signed attempt.  A correctly-signed attempt passes
authentication (none of the four auth failures), marks every row carrying
that nonce used, and afterwards `Consume` of the nonce fails at every
time, so a repeat of the same authenticated call fails with 401
`Invalid or expired challenge`. -/
theorem challenge_single_use_and_retry (hash : String → String)
    (verify : String → String → String → Bool) (st : DBState)
    (lt nonce goodsig badsig : String) (client : Client) (ch : Challenge)
    (include_seen : Bool) (limit : Option Int)
    (before_id since_id : Option Nat) (order : String) (now now2 : Nat)
    (hcl : get_client_by_link_token st lt = some client)
    (hch : get_challenge st lt nonce now = some ch)
    (huniq : ∀ c ∈ st.challenges, c.link_token = lt →
      c.challenge_nonce = nonce → c.id = ch.id)
    (hnonce : nonce ≠ "") (hgood : goodsig ≠ "") (hbad : badsig ≠ "")
    (hvgood : verify client.public_key nonce goodsig = true)
    (hvbad : verify client.public_key nonce badsig = false) :
    (ch ∈ st.challenges ∧ ch.used = false)
    ∧ fetch_messages hash verify st lt (some nonce) (some badsig) none
        include_seen limit before_id since_id order now
        = (.invalidSignature, st)
    ∧ (let out := fetch_messages hash verify st lt (some nonce)
          (some goodsig) none include_seen limit before_id since_id order now
       out.1 ≠ .invalidSignature ∧ out.1 ≠ .invalidChallenge
         ∧ out.1 ≠ .authRequired ∧ out.1 ≠ .invalidFetchToken
         ∧ (∀ c ∈ (Prod.snd out).challenges, c.link_token = lt →
             c.challenge_nonce = nonce → c.used = true)
         ∧ (∀ t, get_challenge (Prod.snd out) lt nonce t = none)
         ∧ fetch_messages hash verify (Prod.snd out) lt (some nonce)
             (some goodsig) none include_seen limit before_id since_id order
             now2 = (.invalidChallenge, Prod.snd out)) := by
  have hconn := connected_of_get_client hcl
  have hpre := get_challenge_spec hch
  have hraises : fetch_get_messages_call_raises = true := by decide
  have hbadstep : fetch_messages hash verify st lt (some nonce)
      (some badsig) none include_seen limit before_id since_id order now
      = (.invalidSignature, st) := by
    unfold fetch_messages
    simp only [hcl, truthy_some hnonce, truthy_some hbad, Bool.and_self,
      if_true, Option.getD_some, hch, hvbad, Bool.false_eq_true, if_false]
  have hgoodstep : fetch_messages hash verify st lt (some nonce)
      (some goodsig) none include_seen limit before_id since_id order now
      = (.serverError, { st with challenges := st.challenges.map (fun c =>
          if c.id == ch.id then { c with used := true } else c) }) := by
    unfold fetch_messages
    simp only [hcl, truthy_some hnonce, truthy_some hgood, Bool.and_self,
      if_true, Option.getD_some, hch, hvgood,
      mark_challenge_used_ok st ch.id hconn]
    unfold fetchPage
    simp [hraises]
  refine ⟨⟨hpre.1, hpre.2.2.2.2⟩, hbadstep, ?_⟩
  rw [hgoodstep]
  have hburn : ∀ t, get_challenge { st with
      challenges := st.challenges.map (fun c =>
        if c.id == ch.id then { c with used := true } else c) } lt nonce t
      = none :=
    fun t => get_challenge_after_burn st lt nonce now t ch hconn hch huniq
  refine ⟨by simp, by simp, by simp, by simp, ?_, hburn, ?_⟩
  · intro c hcmem hl hn
    obtain ⟨c0, hc0mem, hc0eq⟩ := List.mem_map.mp hcmem
    by_cases hid : (c0.id == ch.id) = true
    · rw [if_pos hid] at hc0eq
      subst hc0eq
      rfl
    · rw [if_neg hid] at hc0eq
      subst hc0eq
      exact absurd (beq_iff_eq.mpr (huniq c0 hc0mem hl hn)) hid
  · unfold fetch_messages
    have hcl2 : get_client_by_link_token { st with
        challenges := st.challenges.map (fun c =>
          if c.id == ch.id then { c with used := true } else c) } lt
        = some client := hcl
    simp only [hcl2, truthy_some hnonce, truthy_some hgood, Bool.and_self,
      if_true, Option.getD_some, hburn now2]

/-- The single stored challenge of the C2 witness state. -/
def chW : Challenge :=
  { id := 1, link_token := "A", challenge_nonce := "N", client_ip := none
    user_agent := none, created_at := 0, expires_at := 1000, used := false }

/-- Store of `stAB` holding exactly the challenge `chW` for "A". -/
def stCh : DBState :=
  { stAB with challenges := [chW], next_challenge_id := 2 }

/-- C2 witness: at the concrete store — identity "A" with the single
outstanding challenge nonce "N", the stand-in verifier accepting the
nonce itself as the only valid signature — a wrongly-signed fetch answers
401 leaving the store unchanged, and the correctly-signed fetch burns the
nonce so that consuming it again fails. -/
theorem challenge_single_use_and_retry_witness :
    (chW ∈ stCh.challenges ∧ chW.used = false)
    ∧ fetch_messages hash0 verify0 stCh "A" (some "N") (some "x") none false
        none none none "DESC" 5 = (.invalidSignature, stCh)
    ∧ (∀ t, get_challenge (Prod.snd (fetch_messages hash0 verify0 stCh "A"
        (some "N") (some "N") none false none none none "DESC" 5)) "A" "N" t
        = none) := by
  have h := challenge_single_use_and_retry hash0 verify0 stCh "A" "N" "N"
    "x" clientA chW false none none none "DESC" 5 6 (by decide) (by decide)
    (by decide) (by decide) (by decide) (by decide) (by decide) (by decide)
  exact ⟨h.1, h.2.1, h.2.2.2.2.2.2.2.1⟩

end ChiCrypt
